import Mathlib

/-!
# book-api: router, handlers, middleware and pool-metrics collector

A shallow embedding of the Go sources `main.go`, `handlers/book_handler.go`,
`middleware/logger.go` and `database/metrics.go`.

A handler is embedded as the ordered list of effects (`Event`) it performs:
calls on its `http.ResponseWriter`, increments of the Prometheus instruments of
`metrics/metrics.go`, statements sent to the store, and log lines.  The store
(`database.GetDB()`, a `*sql.DB`) is external; it is embedded as the record
`DB` of the answers it gives to the statements the handlers issue.  The
response a client sees is obtained by replaying the events on a `Response`,
which follows the `net/http` rules (the first `WriteHeader` fixes the status
and the header set; a `Write` before any `WriteHeader` implies status 200).

Go strings are embedded as Lean strings (valid UTF-8 only).  A `float64` is
carried by its IEEE-754 bit pattern and a `time.Time` by its nanoseconds since
the Unix epoch: the handlers only copy them, and `encoding/json` refuses a NaN
or infinite price and a stamp whose year is outside 0..9999.  A handler that
ignores the error of `Encode` then writes no body.
-/

namespace BookAPI

/-! ## models/book.go -/

/-- Go `float64`, by its IEEE-754 binary64 bit pattern: one sign bit, eleven
exponent bits, fifty-two fraction bits. -/
abbrev Float64 := Nat

/-- The value is a NaN or an infinity: all eleven exponent bits are set. -/
def Float64.isNaNOrInf (f : Float64) : Bool :=
  (f / 2 ^ 52) % 2 ^ 11 = 2047

/-- Go `time.Time`, by its nanoseconds since the Unix epoch (UTC). -/
abbrev Time := Int

/-- The year of the instant is within 0..9999, the range `Time.MarshalJSON`
accepts: from 0000-01-01T00:00:00Z up to, not including, 10000-01-01T00:00:00Z. -/
def Time.yearInRange (t : Time) : Bool :=
  decide (-62167219200 * 1000000000 ≤ t ∧ t < 253402300800 * 1000000000)

/-- Go `models.Book`. -/
structure Book where
  ID : Int
  Title : String
  Author : String
  ISBN : String
  Price : Float64
  CreatedAt : Time
  UpdatedAt : Time
deriving DecidableEq, Repr

/-- Whether `encoding/json` can marshal the book: the price is finite and both
stamps have a year within 0..9999 (strings always encode). -/
def Book.encodable (b : Book) : Bool :=
  !Float64.isNaNOrInf b.Price && Time.yearInRange b.CreatedAt && Time.yearInRange b.UpdatedAt

/-! ## Requests, store answers, effects -/

/-- The parts of `*http.Request` the program reads.  `Body` is the outcome of
`json.NewDecoder(r.Body).Decode(&book)` on a zero `models.Book`: `none` when
decoding fails.  (A decoded price is always finite; the theorems do not rely on
that, they hold for every book.) -/
structure Request where
  Method : String
  Path : String
  RequestURI : String
  Body : Option Book
deriving DecidableEq, Repr

/-- Errors of `(*sql.Row).Scan`: `sql.ErrNoRows` when the statement ran and
returned no row, any other failure otherwise. -/
inductive SqlError where
  | ErrNoRows
  | failure (msg : String)
deriving DecidableEq, Repr

/-- Go `error` text of a `SqlError`. -/
def SqlError.Error : SqlError → String
  | .ErrNoRows => "sql: no rows in result set"
  | .failure msg => msg

/-- Statements the handlers send to the store. -/
inductive Query where
  | ping
  | selectAll
  | selectByID (id : Int)
  | insert (title author isbn : String) (price : Float64)
  | update (title author isbn : String) (price : Float64) (id : Int)
  | delete (id : Int)
deriving DecidableEq, Repr

/-- Answers of the store (`database.GetDB()`) at the time of the request.
`Ping`: the error of `db.Ping()`, none when reachable.
`SelectAll`: the error of `db.Query`, or one `Scan` outcome per returned row.
`Delete`: the error of `db.Exec`, or the number of rows affected. -/
structure DB where
  Ping : Option String
  SelectAll : Except String (List (Except String Book))
  SelectByID : Int → Except SqlError Book
  Insert : String → String → String → Float64 → Except SqlError (Int × Time × Time)
  Update : String → String → String → Float64 → Int → Except SqlError Book
  Delete : Int → Except String Int

/-- What is written to the response body.  `object` is the encoding of a
`map[string]string` (encoding/json writes the keys in sorted order), `array`
of a non-nil `[]models.Book`, `null` of a nil slice, `text` is plain text. -/
inductive Payload where
  | object (fields : List (String × String))
  | book (b : Book)
  | array (bs : List Book)
  | null
  | text (s : String)
deriving DecidableEq, Repr

/-- Effects of a handler, in program order. -/
inductive Event where
  | setHeader (key value : String)
  | writeHeader (code : Nat)
  | write (p : Payload)
  | incValidationErrors
  | incApiErrors (type endpoint : String)
  | observeDbQuery (operation : String)
  | setBooksTotal (n : Nat)
  | incBooksTotal
  | decBooksTotal
  | incBooksCreated
  | incBooksUpdated
  | incBooksDeleted
  | incInFlight
  | decInFlight
  | incRequests (method endpoint status : String)
  | observeRequest (method endpoint : String)
  | query (q : Query)
  | logLine (msg : String)
  | logRequest (method uri : String) (status : Nat)
deriving DecidableEq, Repr

/-- Go `http.HandlerFunc`, with the global store handle made explicit. -/
abbrev HandlerFunc := DB → Request → List Event

/-! ## Library functions used by the program -/

/-- Go `strings.TrimPrefix`. -/
def TrimPrefix (s pre : String) : String :=
  if pre.data.isPrefixOf s.data then ⟨s.data.drop pre.data.length⟩ else s

/-- Value of a run of decimal digits, `none` on any other character. -/
def parseDigits : List Char → Nat → Option Nat
  | [], acc => some acc
  | c :: cs, acc =>
    if '0' ≤ c ∧ c ≤ '9' then parseDigits cs (acc * 10 + (c.toNat - '0'.toNat)) else none

/-- Go `strconv.Atoi` on a 64-bit platform: an optional sign, then one or more
decimal digits, the value within the range of `int`; `none` stands for a
non-nil error. -/
def Atoi (s : String) : Option Int :=
  match s.data with
  | [] => none
  | '-' :: ds =>
    if ds = [] then none else
    match parseDigits ds 0 with
    | some n => if n ≤ 2 ^ 63 then some (-(n : Int)) else none
    | none => none
  | '+' :: ds =>
    if ds = [] then none else
    match parseDigits ds 0 with
    | some n => if n < 2 ^ 63 then some (n : Int) else none
    | none => none
  | ds =>
    match parseDigits ds 0 with
    | some n => if n < 2 ^ 63 then some (n : Int) else none
    | none => none

/-- Go `http.Error`: plain-text content type, `nosniff`, the status, then the
message and a newline. -/
def httpError (msg : String) (code : Nat) : List Event :=
  [.setHeader "Content-Type" "text/plain; charset=utf-8",
   .setHeader "X-Content-Type-Options" "nosniff",
   .writeHeader code,
   .write (.text (msg ++ "\n"))]

/-- Go `strconv.Itoa` on a status code. -/
def Itoa (n : Nat) : String := toString n

/-- Go `append(books, book)`; a nil slice is `none`. -/
def appendBook (books : Option (List Book)) (book : Book) : Option (List Book) :=
  match books with
  | none => some [book]
  | some bs => some (bs ++ [book])

/-- Go `len(books)`. -/
def lenBooks : Option (List Book) → Nat
  | none => 0
  | some bs => bs.length

/-- Go `json.NewEncoder(w).Encode(book)` with its error ignored, as every
handler calls it: the encoding is written to `w`, and nothing is written when
marshalling fails. -/
def encodeBook (book : Book) : List Event :=
  if book.encodable then [.write (.book book)] else []

/-- Go `json.NewEncoder(w).Encode(books)` on a `[]models.Book`, with its error
ignored: `null` for a nil slice, the array otherwise, nothing when an element
cannot be marshalled. -/
def encodeBooks : Option (List Book) → List Event
  | none => [.write .null]
  | some bs => if bs.all Book.encodable then [.write (.array bs)] else []

/-! ## handlers/book_handler.go -/

/-- Go `handlers.HealthCheck`. -/
def HealthCheck : HandlerFunc := fun db _ =>
  [.setHeader "Content-Type" "application/json", .query .ping] ++
  match db.Ping with
  | some err =>
    [.incApiErrors "database" "/health",
     .writeHeader 503,
     .write (.object [("database", "disconnected"), ("error", err),
                      ("service", "book-api"), ("status", "unhealthy")])]
  | none =>
    [.writeHeader 200,
     .write (.object [("database", "connected"), ("service", "book-api"),
                      ("status", "healthy")])]

/-- The `for rows.Next()` loop of `GetBooks`: a row whose `Scan` fails is logged
and skipped, the others are appended. -/
def scanRows : List (Except String Book) → Option (List Book) → Option (List Book) × List Event
  | [], books => (books, [])
  | .error err :: rows, books =>
    let (bs, evs) := scanRows rows books
    (bs, .logLine ("Error scanning book: " ++ err) :: evs)
  | .ok book :: rows, books => scanRows rows (appendBook books book)

/-- Go `handlers.GetBooks`. -/
def GetBooks : HandlerFunc := fun db _ =>
  [.query .selectAll, .observeDbQuery "select_all_books"] ++
  match db.SelectAll with
  | .error err =>
    [.logLine ("Error querying books: " ++ err),
     .incApiErrors "database" "/books",
     .setHeader "Content-Type" "application/json",
     .writeHeader 500,
     .write (.object [("error", "Error fetching books")])]
  | .ok rows =>
    let (books, logs) := scanRows rows (some [])
    logs ++
    [.setBooksTotal (lenBooks books),
     .setHeader "Content-Type" "application/json",
     .writeHeader 200] ++
    encodeBooks books

/-- Go `handlers.GetBook`. -/
def GetBook : HandlerFunc := fun db r =>
  let idStr := TrimPrefix r.Path "/books/"
  match Atoi idStr with
  | none =>
    [.incValidationErrors,
     .incApiErrors "validation" "/books/{id}",
     .setHeader "Content-Type" "application/json",
     .writeHeader 400,
     .write (.object [("error", "Invalid book ID")])]
  | some id =>
    [.query (.selectByID id), .observeDbQuery "select_book_by_id"] ++
    match db.SelectByID id with
    | .error _ =>
      [.incApiErrors "not_found" "/books/{id}",
       .setHeader "Content-Type" "application/json",
       .writeHeader 404,
       .write (.object [("error", "Book not found")])]
    | .ok book =>
      [.setHeader "Content-Type" "application/json",
       .writeHeader 200] ++
      encodeBook book

/-- Go `handlers.CreateBook`. -/
def CreateBook : HandlerFunc := fun db r =>
  match r.Body with
  | none =>
    [.incValidationErrors,
     .incApiErrors "validation" "/books",
     .setHeader "Content-Type" "application/json",
     .writeHeader 400,
     .write (.object [("error", "Invalid request body")])]
  | some book =>
    if book.Title = "" ∨ book.Author = "" then
      [.incValidationErrors,
       .incApiErrors "validation" "/books",
       .setHeader "Content-Type" "application/json",
       .writeHeader 400,
       .write (.object [("error", "Title and Author are required")])]
    else
      [.query (.insert book.Title book.Author book.ISBN book.Price),
       .observeDbQuery "insert_book"] ++
      match db.Insert book.Title book.Author book.ISBN book.Price with
      | .error err =>
        [.logLine ("Error creating book: " ++ err.Error),
         .incApiErrors "database" "/books",
         .setHeader "Content-Type" "application/json",
         .writeHeader 500,
         .write (.object [("error", "Error creating book")])]
      | .ok (id, createdAt, updatedAt) =>
        [.incBooksCreated,
         .incBooksTotal,
         .setHeader "Content-Type" "application/json",
         .writeHeader 201] ++
        encodeBook { book with ID := id, CreatedAt := createdAt, UpdatedAt := updatedAt }

/-- Go `handlers.UpdateBook`. -/
def UpdateBook : HandlerFunc := fun db r =>
  let idStr := TrimPrefix r.Path "/books/"
  match Atoi idStr with
  | none =>
    [.incValidationErrors,
     .incApiErrors "validation" "/books/{id}",
     .setHeader "Content-Type" "application/json",
     .writeHeader 400,
     .write (.object [("error", "Invalid book ID")])]
  | some id =>
    match r.Body with
    | none =>
      [.incValidationErrors,
       .incApiErrors "validation" "/books/{id}",
       .setHeader "Content-Type" "application/json",
       .writeHeader 400,
       .write (.object [("error", "Invalid request body")])]
    | some book =>
      [.query (.update book.Title book.Author book.ISBN book.Price id),
       .observeDbQuery "update_book"] ++
      match db.Update book.Title book.Author book.ISBN book.Price id with
      | .error _ =>
        [.incApiErrors "not_found" "/books/{id}",
         .setHeader "Content-Type" "application/json",
         .writeHeader 404,
         .write (.object [("error", "Book not found")])]
      | .ok row =>
        [.incBooksUpdated,
         .setHeader "Content-Type" "application/json",
         .writeHeader 200] ++
        encodeBook row

/-- Go `handlers.DeleteBook`. -/
def DeleteBook : HandlerFunc := fun db r =>
  let idStr := TrimPrefix r.Path "/books/"
  match Atoi idStr with
  | none =>
    [.incValidationErrors,
     .incApiErrors "validation" "/books/{id}",
     .setHeader "Content-Type" "application/json",
     .writeHeader 400,
     .write (.object [("error", "Invalid book ID")])]
  | some id =>
    [.query (.delete id), .observeDbQuery "delete_book"] ++
    match db.Delete id with
    | .error err =>
      [.logLine ("Error deleting book: " ++ err),
       .incApiErrors "database" "/books/{id}",
       .setHeader "Content-Type" "application/json",
       .writeHeader 500,
       .write (.object [("error", "Error deleting book")])]
    | .ok rowsAffected =>
      if rowsAffected = 0 then
        [.incApiErrors "not_found" "/books/{id}",
         .setHeader "Content-Type" "application/json",
         .writeHeader 404,
         .write (.object [("error", "Book not found")])]
      else
        [.incBooksDeleted,
         .decBooksTotal,
         .setHeader "Content-Type" "application/json",
         .writeHeader 200,
         .write (.object [("message", "Book deleted successfully")])]

/-! ## main.go -/

/-- Go `bookRouter`. -/
def bookRouter : HandlerFunc := fun db r =>
  let path := TrimPrefix r.Path "/books"
  let hasID := path ≠ "" ∧ path ≠ "/"
  if r.Method = "GET" then
    if hasID then GetBook db r else GetBooks db r
  else if r.Method = "POST" then
    if ¬ hasID then CreateBook db r else httpError "Method not allowed" 405
  else if r.Method = "PUT" then
    if hasID then UpdateBook db r else httpError "Method not allowed" 405
  else if r.Method = "DELETE" then
    if hasID then DeleteBook db r else httpError "Method not allowed" 405
  else
    httpError "Method not allowed" 405

/-! ## middleware/logger.go -/

/-- Go `middleware.responseWriter`.  The embedded `http.ResponseWriter` is
represented by the effects passed on to it so far. -/
structure responseWriter where
  ResponseWriter : List Event
  statusCode : Nat
deriving DecidableEq, Repr

/-- Go `(*responseWriter).WriteHeader`. -/
def responseWriter.WriteHeader (rw : responseWriter) (code : Nat) : responseWriter :=
  { statusCode := code, ResponseWriter := rw.ResponseWriter ++ [.writeHeader code] }

/-- One effect of the wrapped handler on `wrapped`: `WriteHeader` is the method
above, everything else reaches the embedded writer (promoted methods) or the
process-wide instruments unchanged. -/
def responseWriter.perform (rw : responseWriter) : Event → responseWriter
  | .writeHeader code => rw.WriteHeader code
  | e => { rw with ResponseWriter := rw.ResponseWriter ++ [e] }

/-- Go `middleware.Logger`. -/
def Logger (next : HandlerFunc) : HandlerFunc := fun db r =>
  let wrapped := (next db r).foldl responseWriter.perform ⟨[], 200⟩
  [.incInFlight] ++ wrapped.ResponseWriter ++
  [.incRequests r.Method r.Path (Itoa wrapped.statusCode),
   .observeRequest r.Method r.Path,
   .logRequest r.Method r.RequestURI wrapped.statusCode,
   .decInFlight]

/-- Go `middleware.EnableCORS`. -/
def EnableCORS (next : HandlerFunc) : HandlerFunc := fun db r =>
  [.setHeader "Access-Control-Allow-Origin" "*",
   .setHeader "Access-Control-Allow-Methods" "GET, POST, PUT, DELETE, OPTIONS",
   .setHeader "Access-Control-Allow-Headers" "Content-Type"] ++
  if r.Method = "OPTIONS" then [.writeHeader 200] else next db r

/-- The handlers registered in `main`: `/health`, and `/books`, `/books/`. -/
def healthRoute : HandlerFunc := Logger (EnableCORS HealthCheck)

/-- The handler registered for `/books` and `/books/` in `main`. -/
def booksRoute : HandlerFunc := Logger (EnableCORS bookRouter)

/-! ## database/metrics.go -/

/-- Fields of `sql.DBStats` read by the collector: connection counts,
cumulative `WaitCount`, cumulative `WaitDuration` in nanoseconds. -/
structure DBStats where
  OpenConnections : Nat
  InUse : Nat
  Idle : Nat
  WaitCount : Nat
  WaitDuration : Nat
deriving DecidableEq, Repr

/-- Values of the five pool instruments of `metrics/metrics.go` (float64,
taken as exact rationals). -/
structure PoolMetrics where
  DbConnectionsOpen : ℚ
  DbConnectionsInUse : ℚ
  DbConnectionsIdle : ℚ
  DbConnectionsWaitCount : ℚ
  DbConnectionsWaitDuration : ℚ
deriving DecidableEq

/-- Go `time.Duration.Seconds`. -/
def Seconds (d : Nat) : ℚ := (d : ℚ) / 1000000000

/-- Go `database.CollectDBMetrics`; `DB` is the global pool handle (`none` when
nil) with the statistics `DB.Stats()` returns at this tick. -/
def CollectDBMetrics (DB : Option DBStats) (m : PoolMetrics) : PoolMetrics :=
  match DB with
  | none => m
  | some stats =>
    { DbConnectionsOpen := (stats.OpenConnections : ℚ)
      DbConnectionsInUse := (stats.InUse : ℚ)
      DbConnectionsIdle := (stats.Idle : ℚ)
      DbConnectionsWaitCount := m.DbConnectionsWaitCount + (stats.WaitCount : ℚ)
      DbConnectionsWaitDuration := m.DbConnectionsWaitDuration + Seconds stats.WaitDuration }

/-- The loop of `StartMetricsCollection`: one `CollectDBMetrics` per tick, the
pool being in the given state at each tick. -/
def collectTicks (samples : List (Option DBStats)) (m : PoolMetrics) : PoolMetrics :=
  samples.foldl (fun acc DB => CollectDBMetrics DB acc) m

/-- The instruments at process start. -/
def PoolMetrics.zero : PoolMetrics := ⟨0, 0, 0, 0, 0⟩

/-! ## What a client and the metrics registry observe -/

/-- State of the server's `http.ResponseWriter`: the live header map, and the
status line, header set and body sent so far. -/
structure Response where
  header : List (String × String)
  wroteHeader : Bool
  status : Nat
  sent : List (String × String)
  body : List Payload
deriving DecidableEq, Repr

/-- A fresh response writer. -/
def Response.init : Response := ⟨[], false, 0, [], []⟩

/-- Go `w.Header().Set(key, value)`. -/
def Response.Set (w : Response) (key value : String) : Response :=
  { w with header := (key, value) :: w.header.filter (fun kv => kv.1 ≠ key) }

/-- Go `w.WriteHeader(code)` of net/http: only the first call has an effect; it
fixes the status and the headers sent. -/
def Response.WriteHeader (w : Response) (code : Nat) : Response :=
  if w.wroteHeader then w
  else { w with wroteHeader := true, status := code, sent := w.header }

/-- Go `w.Write`: implies `WriteHeader(200)` when no header was written. -/
def Response.Write (w : Response) (p : Payload) : Response :=
  let w1 := w.WriteHeader 200
  { w1 with body := w1.body ++ [p] }

/-- Effect of one event on the response writer. -/
def Response.perform (w : Response) : Event → Response
  | .setHeader k v => w.Set k v
  | .writeHeader code => w.WriteHeader code
  | .write p => w.Write p
  | _ => w

/-- Header of the response as sent. -/
def Response.Get (w : Response) (key : String) : Option String :=
  (w.sent.find? (fun kv => kv.1 = key)).map (fun kv => kv.2)

/-- The response the server sends for the events of a handler: when the
handler returns without writing, net/http sends status 200. -/
def respond (es : List Event) : Response :=
  (es.foldl Response.perform Response.init).WriteHeader 200

/-- The response of handler `h` to request `r` with store `db`. -/
def serve (h : HandlerFunc) (db : DB) (r : Request) : Response :=
  respond (h db r)

/-- Values of the business and error instruments of `metrics/metrics.go`. -/
structure Metrics where
  ValidationErrorsTotal : Nat
  ApiErrorsTotal : String → String → Nat
  BooksCreatedTotal : Nat
  BooksUpdatedTotal : Nat
  BooksDeletedTotal : Nat
  BooksTotal : Int

/-- Effect of one event on the instruments. -/
def Metrics.perform (m : Metrics) : Event → Metrics
  | .incValidationErrors => { m with ValidationErrorsTotal := m.ValidationErrorsTotal + 1 }
  | .incApiErrors t e =>
    { m with ApiErrorsTotal := fun t1 e1 =>
        if t1 = t ∧ e1 = e then m.ApiErrorsTotal t1 e1 + 1 else m.ApiErrorsTotal t1 e1 }
  | .setBooksTotal n => { m with BooksTotal := (n : Int) }
  | .incBooksTotal => { m with BooksTotal := m.BooksTotal + 1 }
  | .decBooksTotal => { m with BooksTotal := m.BooksTotal - 1 }
  | .incBooksCreated => { m with BooksCreatedTotal := m.BooksCreatedTotal + 1 }
  | .incBooksUpdated => { m with BooksUpdatedTotal := m.BooksUpdatedTotal + 1 }
  | .incBooksDeleted => { m with BooksDeletedTotal := m.BooksDeletedTotal + 1 }
  | _ => m

/-- The instruments after the events of a handler. -/
def Metrics.after (m : Metrics) (es : List Event) : Metrics :=
  es.foldl Metrics.perform m

/-- The statements sent to the store, in order. -/
def queries (es : List Event) : List Query :=
  es.filterMap (fun e => match e with | .query q => some q | _ => none)

/-- The label pairs of the `ApiErrorsTotal` increments, in order. -/
def apiErrorIncs (es : List Event) : List (String × String) :=
  es.filterMap (fun e => match e with | .incApiErrors t p => some (t, p) | _ => none)

/-- The codes passed to `WriteHeader`, in order. -/
def writeHeaderCodes (es : List Event) : List Nat :=
  es.filterMap (fun e => match e with | .writeHeader c => some c | _ => none)

/-- Whether an `ApiErrorsTotal` increment comes before anything is written to
the response (status line or body). -/
def apiErrorBeforeStatus : List Event → Bool
  | [] => false
  | .incApiErrors _ _ :: _ => true
  | .writeHeader _ :: _ => false
  | .write _ :: _ => false
  | _ :: es => apiErrorBeforeStatus es

/-! ## The router table as the specification words it -/

/-- The cells of the dispatch table. -/
inductive Target where
  | listAll
  | getOne
  | create
  | update
  | delete
  | methodNotAllowed
deriving DecidableEq, Repr

/-- The table: method against presence of an identifier. -/
def routeTable (method : String) (hasID : Bool) : Target :=
  if method = "GET" then (if hasID then .getOne else .listAll)
  else if method = "POST" then (if hasID then .methodNotAllowed else .create)
  else if method = "PUT" then (if hasID then .update else .methodNotAllowed)
  else if method = "DELETE" then (if hasID then .delete else .methodNotAllowed)
  else .methodNotAllowed

/-- What each cell of the table runs. -/
def Target.run : Target → HandlerFunc
  | .listAll => GetBooks
  | .getOne => GetBook
  | .create => CreateBook
  | .update => UpdateBook
  | .delete => DeleteBook
  | .methodNotAllowed => fun _ _ => httpError "Method not allowed" 405

/-- The path carries an identifier: with a leading "/books" stripped it is
neither empty nor a bare slash. -/
def hasID (p : String) : Bool :=
  decide (TrimPrefix p "/books" ≠ "" ∧ TrimPrefix p "/books" ≠ "/")

/-- The rows of a result set whose `Scan` succeeds, in order. -/
def scanned (rows : List (Except String Book)) : List Book :=
  rows.filterMap (fun row => match row with | .ok b => some b | .error _ => none)

/-- The three header calls of `EnableCORS`. -/
def corsHeaders : List Event :=
  [.setHeader "Access-Control-Allow-Origin" "*",
   .setHeader "Access-Control-Allow-Methods" "GET, POST, PUT, DELETE, OPTIONS",
   .setHeader "Access-Control-Allow-Headers" "Content-Type"]

/-- A handler that calls `WriteHeader` twice: 200, then 500. -/
def writesTwice : HandlerFunc := fun _ _ => [.writeHeader 200, .writeHeader 500]

/-- The events that are calls on the response writer. -/
def isWriterEvent : Event → Bool
  | .setHeader _ _ => true
  | .writeHeader _ => true
  | .write _ => true
  | _ => false

/-- The common shape of what a book handler does: its calls on the writer are
the JSON content type, one status among 200, 201, 400, 404, 500, then the
encoded value (nothing when encoding fails); the success paths count no API
error; the error paths write an object with the single member "error" and
count one typed API error first. -/
def JsonShape (es : List Event) : Prop :=
  ∃ c ps,
    es.filter isWriterEvent
      = [.setHeader "Content-Type" "application/json", .writeHeader c] ++ ps.map Event.write
    ∧ c ∈ [200, 201, 400, 404, 500]
    ∧ (c < 400 → apiErrorIncs es = [])
    ∧ (400 ≤ c →
        (∃ msg, ps = [.object [("error", msg)]])
        ∧ ∃ t e, apiErrorIncs es = [(t, e)]
            ∧ t ∈ ["validation", "not_found", "database"]
            ∧ apiErrorBeforeStatus es = true)

/-- The status `Logger` ends up with in `wrapped.statusCode`: the code of the
last `WriteHeader` call of the wrapped handler, 200 when there is none. -/
def lastStatus (es : List Event) : Nat :=
  ((writeHeaderCodes es).getLast?).getD 200

/-- The code of the first `WriteHeader` call, 200 when there is none. -/
def firstStatus (es : List Event) : Nat :=
  ((writeHeaderCodes es).head?).getD 200

/-! ## Sample inputs -/

/-- The bit pattern of Go `math.NaN()`. -/
def nanPrice : Float64 := 0x7FF8000000000001

/-- A book as stored, with a finite price. -/
def storedBook : Book := ⟨7, "A", "B", "", 0, 100, 100⟩

/-- A reachable store whose table holds one row. -/
def oneRowDB : DB where
  Ping := none
  SelectAll := .ok [.ok storedBook]
  SelectByID := fun _ => .ok storedBook
  Insert := fun _ _ _ _ => .ok (8, 200, 200)
  Update := fun _ _ _ _ _ => .ok storedBook
  Delete := fun _ => .ok 1

/-- A reachable store whose only row has a NaN price. -/
def nanRowDB : DB where
  Ping := none
  SelectAll := .ok [.ok { storedBook with Price := nanPrice }]
  SelectByID := fun _ => .ok { storedBook with Price := nanPrice }
  Insert := fun _ _ _ _ => .ok (8, 200, 200)
  Update := fun _ _ _ _ _ => .ok { storedBook with Price := nanPrice }
  Delete := fun _ => .ok 1

/-- A pool that has waited three times, five nanoseconds in total. -/
def samplePool : DBStats := ⟨2, 1, 1, 3, 5⟩


/-- A store that is unreachable: every statement fails. -/
def downDB : DB where
  Ping := some "connection refused"
  SelectAll := .error "connection refused"
  SelectByID := fun _ => .error (.failure "connection refused")
  Insert := fun _ _ _ _ => .error (.failure "connection refused")
  Update := fun _ _ _ _ _ => .error (.failure "connection refused")
  Delete := fun _ => .error "connection refused"

/-- A reachable store whose table is empty. -/
def emptyDB : DB where
  Ping := none
  SelectAll := .ok []
  SelectByID := fun _ => .error .ErrNoRows
  Insert := fun _ _ _ _ => .ok (1, 100, 100)
  Update := fun _ _ _ _ _ => .error .ErrNoRows
  Delete := fun _ => .ok 0

/-- All instruments at zero. -/
def Metrics.zero : Metrics := ⟨0, fun _ _ => 0, 0, 0, 0, 0⟩

/-- A decoded request body. -/
def sampleBook : Book := ⟨0, "A", "B", "", 0, 0, 0⟩

/-- A request with a decoded body. -/
def reqWith (method path : String) (book : Book) : Request := ⟨method, path, path, some book⟩

/-- A request without a body. -/
def req (method path : String) : Request := ⟨method, path, path, none⟩

/-! ## Router -/

theorem hasID_eq_true_iff (p : String) :
    hasID p = true ↔ TrimPrefix p "/books" ≠ "" ∧ TrimPrefix p "/books" ≠ "/" := by
  simp [hasID]

/-- Without the prefix test: the only paths without an identifier are the
collection path with or without its trailing slash, and the two remainders
themselves. -/
theorem hasID_eq_false_iff (p : String) :
    hasID p = false ↔ p = "/books" ∨ p = "/books/" ∨ p = "" ∨ p = "/" := by
  have k : ∀ (l : List Char) (s : String), ((⟨l⟩ : String) = s) ↔ l = s.data :=
    fun l s => by rw [String.ext_iff]
  have d0 : ("" : String).data = [] := rfl
  have d1 : ("/" : String).data = ['/'] := rfl
  have d2 : ("/books" : String).data = ['/', 'b', 'o', 'o', 'k', 's'] := rfl
  have d3 : ("/books/" : String).data = ['/', 'b', 'o', 'o', 'k', 's', '/'] := rfl
  obtain ⟨l⟩ := p
  rw [← Bool.not_eq_true, hasID_eq_true_iff]
  unfold TrimPrefix
  by_cases hp : List.isPrefixOf ("/books" : String).data l = true
  · rw [if_pos hp]
    simp only [k, d0, d1, d2, d3, ne_eq] at hp ⊢
    obtain ⟨t, rfl⟩ := List.isPrefixOf_iff_prefix.mp hp
    have hd : List.drop ['/', 'b', 'o', 'o', 'k', 's'].length
        (['/', 'b', 'o', 'o', 'k', 's'] ++ t) = t := List.drop_left _ _
    rw [hd]
    simp
    tauto
  · rw [if_neg hp]
    simp only [k, d0, d1, d2, d3, ne_eq] at hp ⊢
    have h2 : l ≠ ['/', 'b', 'o', 'o', 'k', 's'] := by
      rintro rfl; exact hp (by decide)
    have h3 : l ≠ ['/', 'b', 'o', 'o', 'k', 's', '/'] := by
      rintro rfl; exact hp (by decide)
    simp only [h2, h3, false_or]
    tauto

/-- The router runs the cell of the table. -/
theorem bookRouter_table (db : DB) (r : Request) :
    bookRouter db r = (routeTable r.Method (hasID r.Path)).run db r := by
  have h := hasID_eq_true_iff r.Path
  unfold bookRouter routeTable
  by_cases hid : hasID r.Path = true
  · have h1 := h.mp hid
    simp only [hid, h1, if_true]
    split_ifs <;> simp [Target.run]
  · have h1 : ¬ (TrimPrefix r.Path "/books" ≠ "" ∧ TrimPrefix r.Path "/books" ≠ "/") :=
      fun hc => hid (h.mpr hc)
    simp only [Bool.not_eq_true] at hid
    simp only [hid, h1, if_false]
    split_ifs <;> first | rfl | contradiction

/-- C1: for every method and path, `bookRouter` runs the cell of the dispatch
table selected by the method and by whether the path, with a leading "/books"
stripped, is neither empty nor a bare slash; "/books" and "/books/" carry no
identifier. -/
theorem bookRouter_dispatch (db : DB) (r : Request) :
    bookRouter db r = (routeTable r.Method (hasID r.Path)).run db r
    ∧ (hasID r.Path = true ↔
        TrimPrefix r.Path "/books" ≠ "" ∧ TrimPrefix r.Path "/books" ≠ "/")
    ∧ (hasID r.Path = false ↔
        r.Path = "/books" ∨ r.Path = "/books/" ∨ r.Path = "" ∨ r.Path = "/")
    ∧ hasID "/books" = false ∧ hasID "/books/" = false :=
  ⟨bookRouter_table db r, hasID_eq_true_iff r.Path, hasID_eq_false_iff r.Path,
    by decide, by decide⟩

/-! ## Handlers: identifier and body validation -/

/-- C2: when the remainder of the path after "/books/" does not parse as an
integer, each of GetBook, UpdateBook and DeleteBook answers 400 with the body
"error": "Invalid book ID", increments the validation-error counter exactly
once (whatever the request body), and sends nothing to the store. -/
theorem invalid_id_is_400 (db : DB) (r : Request) (m : Metrics)
    (h : Atoi (TrimPrefix r.Path "/books/") = none) :
    ∀ handler ∈ [GetBook, UpdateBook, DeleteBook],
      (serve handler db r).status = 400
      ∧ (serve handler db r).body = [.object [("error", "Invalid book ID")]]
      ∧ (handler db r).count .incValidationErrors = 1
      ∧ (m.after (handler db r)).ValidationErrorsTotal = m.ValidationErrorsTotal + 1
      ∧ queries (handler db r) = [] := by
  intro handler hmem
  simp only [List.mem_cons, List.mem_singleton, List.not_mem_nil, or_false] at hmem
  rcases hmem with rfl | rfl | rfl <;>
    simp [GetBook, UpdateBook, DeleteBook, h, serve, respond, Response.perform, Response.init,
      Response.Set, Response.WriteHeader, Response.Write, Metrics.after, Metrics.perform,
      queries]

theorem invalid_id_is_400_witness :
    Atoi (TrimPrefix (req "PUT" "/books/abc").Path "/books/") = none
    ∧ (serve UpdateBook emptyDB (req "PUT" "/books/abc")).status = 400
    ∧ (serve UpdateBook emptyDB (req "PUT" "/books/abc")).body
        = [.object [("error", "Invalid book ID")]]
    ∧ (UpdateBook emptyDB (req "PUT" "/books/abc")).count .incValidationErrors = 1
    ∧ (Metrics.zero.after (UpdateBook emptyDB (req "PUT" "/books/abc"))).ValidationErrorsTotal
        = Metrics.zero.ValidationErrorsTotal + 1
    ∧ queries (UpdateBook emptyDB (req "PUT" "/books/abc")) = [] :=
  ⟨by decide,
   invalid_id_is_400 emptyDB (req "PUT" "/books/abc") Metrics.zero (by decide) UpdateBook
     (by simp)⟩

/-- C4: when the decoded body has an empty Title or an empty Author, CreateBook
answers 400, sends no statement to the store, and leaves the books-created
counter and the total-books gauge as they were. -/
theorem CreateBook_missing_field (db : DB) (r : Request) (book : Book) (m : Metrics)
    (hb : r.Body = some book) (he : book.Title = "" ∨ book.Author = "") :
    (serve CreateBook db r).status = 400
    ∧ queries (CreateBook db r) = []
    ∧ (m.after (CreateBook db r)).BooksCreatedTotal = m.BooksCreatedTotal
    ∧ (m.after (CreateBook db r)).BooksTotal = m.BooksTotal := by
  simp [CreateBook, hb, he, serve, respond, Response.perform, Response.init,
    Response.Set, Response.WriteHeader, Response.Write, Metrics.after, Metrics.perform,
    queries]

theorem CreateBook_missing_field_witness :
    (reqWith "POST" "/books" ⟨0, "A", "", "", 0, 0, 0⟩).Body = some ⟨0, "A", "", "", 0, 0, 0⟩
    ∧ ((⟨0, "A", "", "", 0, 0, 0⟩ : Book).Title = "" ∨ (⟨0, "A", "", "", 0, 0, 0⟩ : Book).Author = "")
    ∧ (serve CreateBook emptyDB (reqWith "POST" "/books" ⟨0, "A", "", "", 0, 0, 0⟩)).status = 400
    ∧ queries (CreateBook emptyDB (reqWith "POST" "/books" ⟨0, "A", "", "", 0, 0, 0⟩)) = []
    ∧ (Metrics.zero.after
        (CreateBook emptyDB (reqWith "POST" "/books" ⟨0, "A", "", "", 0, 0, 0⟩))).BooksCreatedTotal
        = Metrics.zero.BooksCreatedTotal
    ∧ (Metrics.zero.after
        (CreateBook emptyDB (reqWith "POST" "/books" ⟨0, "A", "", "", 0, 0, 0⟩))).BooksTotal
        = Metrics.zero.BooksTotal :=
  ⟨rfl, Or.inr rfl,
   CreateBook_missing_field emptyDB (reqWith "POST" "/books" ⟨0, "A", "", "", 0, 0, 0⟩)
     ⟨0, "A", "", "", 0, 0, 0⟩ Metrics.zero rfl (Or.inr rfl)⟩

/-! ## Handlers: store outcomes -/

/-- With a well-formed identifier, GetBook answers 404 exactly when the store
query returns an error, of whatever kind. -/
theorem GetBook_status (db : DB) (r : Request) (id : Int)
    (h : Atoi (TrimPrefix r.Path "/books/") = some id) :
    (serve GetBook db r).status =
      match db.SelectByID id with
      | .error _ => 404
      | .ok _ => 200 := by
  cases hq : db.SelectByID id with
  | error err =>
    simp [GetBook, h, hq, serve, respond, Response.perform, Response.init,
      Response.Set, Response.WriteHeader, Response.Write]
  | ok book =>
    by_cases he : book.encodable = true <;>
      simp [GetBook, h, hq, he, encodeBook, serve, respond, Response.perform, Response.init,
        Response.Set, Response.WriteHeader, Response.Write]

/-- With a well-formed identifier and a decodable body, UpdateBook answers 404
exactly when the store statement returns an error, of whatever kind. -/
theorem UpdateBook_status (db : DB) (r : Request) (id : Int) (book : Book)
    (h : Atoi (TrimPrefix r.Path "/books/") = some id) (hb : r.Body = some book) :
    (serve UpdateBook db r).status =
      match db.Update book.Title book.Author book.ISBN book.Price id with
      | .error _ => 404
      | .ok _ => 200 := by
  cases hq : db.Update book.Title book.Author book.ISBN book.Price id with
  | error err =>
    simp [UpdateBook, h, hb, hq, serve, respond, Response.perform, Response.init,
      Response.Set, Response.WriteHeader, Response.Write]
  | ok row =>
    by_cases he : row.encodable = true <;>
      simp [UpdateBook, h, hb, hq, he, encodeBook, serve, respond, Response.perform,
        Response.init, Response.Set, Response.WriteHeader, Response.Write]

/-- C3, evaluated where the code departs from it: the store is unreachable (the
query fails with an error other than "no rows"), the identifier is well formed
and the body decodes; GetBook and UpdateBook answer 404 "Book not found" and
count the error as not_found, where DeleteBook on the same store answers 500. -/
theorem store_failure_answered_404 :
    downDB.SelectByID 1 = .error (.failure "connection refused")
    ∧ downDB.Update "A" "B" "" 0 1 = .error (.failure "connection refused")
    ∧ (serve GetBook downDB (req "GET" "/books/1")).status = 404
    ∧ (serve GetBook downDB (req "GET" "/books/1")).body
        = [.object [("error", "Book not found")]]
    ∧ apiErrorIncs (GetBook downDB (req "GET" "/books/1")) = [("not_found", "/books/{id}")]
    ∧ (serve UpdateBook downDB (reqWith "PUT" "/books/1" sampleBook)).status = 404
    ∧ (serve UpdateBook downDB (reqWith "PUT" "/books/1" sampleBook)).body
        = [.object [("error", "Book not found")]]
    ∧ (serve DeleteBook downDB (req "DELETE" "/books/1")).status = 500 := by
  refine ⟨rfl, rfl, ?_, ?_, ?_, ?_, ?_, ?_⟩ <;> decide

/-! ## GetBooks -/

theorem scanRows_fst (rows : List (Except String Book)) (acc : List Book) :
    (scanRows rows (some acc)).1 = some (acc ++ scanned rows) := by
  induction rows generalizing acc with
  | nil => simp [scanRows, scanned]
  | cons row rows ih =>
    cases row with
    | error err =>
      have := ih acc
      simp only [scanRows, scanned, List.filterMap_cons] at this ⊢
      exact this
    | ok book =>
      have := ih (acc ++ [book])
      simp only [scanRows, scanned, List.filterMap_cons, appendBook, List.append_assoc,
        List.singleton_append] at this ⊢
      exact this

theorem scanRows_snd (rows : List (Except String Book)) (books : Option (List Book)) :
    ∀ e ∈ (scanRows rows books).2, ∃ msg, e = .logLine msg := by
  induction rows generalizing books with
  | nil => simp [scanRows]
  | cons row rows ih =>
    cases row with
    | error err =>
      intro e he
      simp only [scanRows, List.mem_cons] at he
      rcases he with rfl | he
      · exact ⟨_, rfl⟩
      · exact ih books e he
    | ok book =>
      intro e he
      simp only [scanRows] at he
      exact ih _ e he

/-- Log lines do not touch the response writer. -/
theorem foldl_perform_logs (es : List Event) (w : Response)
    (h : ∀ e ∈ es, ∃ msg, e = .logLine msg) : es.foldl Response.perform w = w := by
  induction es generalizing w with
  | nil => rfl
  | cons e es ih =>
    obtain ⟨msg, rfl⟩ := h e (List.mem_cons_self _ _)
    simp only [List.foldl_cons, Response.perform]
    exact ih w (fun e he => h e (List.mem_cons_of_mem _ he))

/-- C5 as the code has it: when the store query succeeds GetBooks answers 200,
and the body is the JSON array of the rows that scan (the empty array, not
null, when there is none) whenever those rows can be encoded; when the query
fails it answers 500 with a generic error object. -/
theorem GetBooks_response (db : DB) (r : Request) :
    (∀ rows, db.SelectAll = .ok rows →
      (serve GetBooks db r).status = 200
      ∧ ((scanned rows).all Book.encodable = true →
          (serve GetBooks db r).body = [.array (scanned rows)])
      ∧ (rows = [] → (serve GetBooks db r).body = [.array []]))
    ∧ (∀ err, db.SelectAll = .error err →
      (serve GetBooks db r).status = 500
      ∧ (serve GetBooks db r).body = [.object [("error", "Error fetching books")]]) := by
  constructor
  · intro rows hq
    have h1 := scanRows_fst rows []
    have h2 := scanRows_snd rows (some [])
    have key : (serve GetBooks db r).status = 200
        ∧ ((scanned rows).all Book.encodable = true →
            (serve GetBooks db r).body = [.array (scanned rows)]) := by
      cases hs : scanRows rows (some []) with
      | mk books logs =>
        rw [hs] at h1 h2
        simp only [List.nil_append] at h1
        subst h1
        simp only [serve, respond, GetBooks, hq, hs, List.foldl_append, List.foldl_cons,
          List.foldl_nil, List.cons_append, List.nil_append]
        simp only [Response.perform]
        rw [foldl_perform_logs logs _ h2]
        by_cases he : (scanned rows).all Book.encodable = true
        · simp [he, Response.perform, Response.init, Response.Set, Response.WriteHeader,
            Response.Write, encodeBooks]
        · simp [he, Response.perform, Response.init, Response.Set, Response.WriteHeader,
            Response.Write, encodeBooks]
    refine ⟨key.1, key.2, ?_⟩
    rintro rfl
    simpa [scanned] using key.2 (by simp [scanned])
  · intro err hq
    simp [GetBooks, hq, serve, respond, Response.perform, Response.init,
      Response.Set, Response.WriteHeader, Response.Write]

theorem GetBooks_response_witness :
    oneRowDB.SelectAll = .ok [.ok storedBook]
    ∧ (scanned [.ok storedBook]).all Book.encodable = true
    ∧ (serve GetBooks oneRowDB (req "GET" "/books")).status = 200
    ∧ (serve GetBooks oneRowDB (req "GET" "/books")).body = [.array (scanned [.ok storedBook])]
    ∧ downDB.SelectAll = .error "connection refused"
    ∧ (serve GetBooks downDB (req "GET" "/books")).status = 500 :=
  ⟨rfl, by decide,
   ((GetBooks_response oneRowDB (req "GET" "/books")).1 [.ok storedBook] rfl).1,
   ((GetBooks_response oneRowDB (req "GET" "/books")).1 [.ok storedBook] rfl).2.1 (by decide),
   rfl,
   ((GetBooks_response downDB (req "GET" "/books")).2 "connection refused" rfl).1⟩

/-- When a scanned row cannot be encoded (here a NaN price), the ignored error
of Encode leaves the 200 response of GetBooks without a body. -/
theorem GetBooks_unencodable_row :
    Float64.isNaNOrInf nanPrice = true
    ∧ (serve GetBooks nanRowDB (req "GET" "/books")).status = 200
    ∧ (serve GetBooks nanRowDB (req "GET" "/books")).body = [] := by
  refine ⟨?_, ?_, ?_⟩ <;> decide

/-- C5 refuted as stated: with the store unreachable, GetBooks answers 500 with
an error object, not 200 with an array. -/
theorem GetBooks_store_failure :
    downDB.SelectAll = .error "connection refused"
    ∧ (serve GetBooks downDB (req "GET" "/books")).status = 500
    ∧ (serve GetBooks downDB (req "GET" "/books")).status ≠ 200
    ∧ (serve GetBooks downDB (req "GET" "/books")).body
        = [.object [("error", "Error fetching books")]] := by
  refine ⟨rfl, ?_, ?_, ?_⟩ <;> decide

/-! ## EnableCORS -/

/-- C6: on an OPTIONS request EnableCORS sets the three CORS headers and writes
status 200 with no body, whatever the wrapped handler is (it is not run); on
any other method it sets the same three headers and then runs the wrapped
handler once. -/
theorem EnableCORS_behaviour (next : HandlerFunc) (db : DB) (r : Request) :
    (r.Method = "OPTIONS" →
      EnableCORS next db r = corsHeaders ++ [.writeHeader 200]
      ∧ (∀ other : HandlerFunc, EnableCORS other db r = EnableCORS next db r)
      ∧ (serve (EnableCORS next) db r).status = 200
      ∧ (serve (EnableCORS next) db r).body = []
      ∧ (serve (EnableCORS next) db r).Get "Access-Control-Allow-Origin" = some "*"
      ∧ (serve (EnableCORS next) db r).Get "Access-Control-Allow-Methods"
          = some "GET, POST, PUT, DELETE, OPTIONS"
      ∧ (serve (EnableCORS next) db r).Get "Access-Control-Allow-Headers"
          = some "Content-Type")
    ∧ (r.Method ≠ "OPTIONS" → EnableCORS next db r = corsHeaders ++ next db r) := by
  constructor
  · intro h
    have e : ∀ h1 : HandlerFunc, EnableCORS h1 db r = corsHeaders ++ [.writeHeader 200] := by
      intro h1; simp [EnableCORS, corsHeaders, h]
    refine ⟨e next, fun other => by rw [e other, e next], ?_, ?_, ?_, ?_, ?_⟩ <;>
      simp only [serve, e next] <;> decide
  · intro h
    simp [EnableCORS, corsHeaders, h]

theorem EnableCORS_behaviour_witness :
    (req "OPTIONS" "/books/7").Method = "OPTIONS"
    ∧ (serve (EnableCORS bookRouter) downDB (req "OPTIONS" "/books/7")).status = 200
    ∧ (serve (EnableCORS bookRouter) downDB (req "OPTIONS" "/books/7")).body = []
    ∧ (req "GET" "/health").Method ≠ "OPTIONS"
    ∧ EnableCORS HealthCheck downDB (req "GET" "/health")
        = corsHeaders ++ HealthCheck downDB (req "GET" "/health") :=
  ⟨rfl,
   ((EnableCORS_behaviour bookRouter downDB (req "OPTIONS" "/books/7")).1 rfl).2.2.1,
   ((EnableCORS_behaviour bookRouter downDB (req "OPTIONS" "/books/7")).1 rfl).2.2.2.1,
   by decide,
   (EnableCORS_behaviour HealthCheck downDB (req "GET" "/health")).2 (by decide)⟩

/-! ## Logger -/

theorem foldl_perform_ResponseWriter (es : List Event) (rw : responseWriter) :
    (es.foldl responseWriter.perform rw).ResponseWriter = rw.ResponseWriter ++ es := by
  induction es generalizing rw with
  | nil => simp
  | cons e es ih =>
    rw [List.foldl_cons, ih]
    cases e <;> simp [responseWriter.perform, responseWriter.WriteHeader]

theorem getLast?_cons_getD (c d : Nat) (l : List Nat) :
    ((c :: l).getLast?).getD d = (l.getLast?).getD c := by
  cases l with
  | nil => rfl
  | cons a l => rw [List.getLast?_cons_cons]; rfl

theorem writeHeaderCodes_cons (e : Event) (es : List Event) :
    writeHeaderCodes (e :: es) =
      match e with
      | .writeHeader c => c :: writeHeaderCodes es
      | _ => writeHeaderCodes es := by
  cases e <;> simp [writeHeaderCodes, List.filterMap_cons]

theorem foldl_perform_statusCode (es : List Event) (rw : responseWriter) :
    (es.foldl responseWriter.perform rw).statusCode
      = ((writeHeaderCodes es).getLast?).getD rw.statusCode := by
  induction es generalizing rw with
  | nil => simp [writeHeaderCodes]
  | cons e es ih =>
    rw [List.foldl_cons, ih, writeHeaderCodes_cons]
    cases e
    case writeHeader code =>
      simp only [responseWriter.perform, responseWriter.WriteHeader]
      rw [getLast?_cons_getD]
    all_goals rfl

/-- C8 as the code has it: Logger passes the effects of the wrapped handler
through unchanged and records, in the request counter label and in the log
line, the code of the LAST `WriteHeader` call of the wrapped handler (200 when
it made none): one more `WriteHeader` call at the end replaces the recorded
status by its code.  When the handler called `WriteHeader` at most once, the
recorded status is the first code. -/
theorem Logger_records_last_status (next : HandlerFunc) (db : DB) (r : Request) :
    Logger next db r =
      [.incInFlight] ++ next db r ++
      [.incRequests r.Method r.Path (Itoa (lastStatus (next db r))),
       .observeRequest r.Method r.Path,
       .logRequest r.Method r.RequestURI (lastStatus (next db r)),
       .decInFlight]
    ∧ (∀ code, lastStatus (next db r ++ [.writeHeader code]) = code)
    ∧ ((writeHeaderCodes (next db r)).length ≤ 1 →
        lastStatus (next db r) = firstStatus (next db r)) := by
  refine ⟨?_, ?_, ?_⟩
  · simp only [Logger, foldl_perform_ResponseWriter, foldl_perform_statusCode, lastStatus,
      List.nil_append]
  · intro code
    simp [lastStatus, writeHeaderCodes, List.filterMap_append]
  · intro h
    unfold lastStatus firstStatus
    cases hc : writeHeaderCodes (next db r) with
    | nil => rfl
    | cons a l =>
      cases l with
      | nil => rfl
      | cons b l => rw [hc] at h; simp at h

theorem Logger_records_last_status_witness :
    (writeHeaderCodes (GetBook emptyDB (req "GET" "/books/7"))).length ≤ 1
    ∧ lastStatus (GetBook emptyDB (req "GET" "/books/7"))
        = firstStatus (GetBook emptyDB (req "GET" "/books/7"))
    ∧ lastStatus (GetBook emptyDB (req "GET" "/books/7")) = 404 :=
  ⟨by decide,
   (Logger_records_last_status GetBook emptyDB (req "GET" "/books/7")).2.2 (by decide),
   by decide⟩

/-- C8 refuted as stated: for a wrapped handler that calls `WriteHeader(200)`
and then `WriteHeader(500)`, the response goes out with the first code, 200,
and `Logger` records 500. -/
theorem Logger_second_WriteHeader_overwrites :
    Logger writesTwice emptyDB (req "GET" "/books") =
      [.incInFlight, .writeHeader 200, .writeHeader 500,
       .incRequests "GET" "/books" "500", .observeRequest "GET" "/books",
       .logRequest "GET" "/books" 500, .decInFlight]
    ∧ firstStatus (writesTwice emptyDB (req "GET" "/books")) = 200
    ∧ (serve (Logger writesTwice) emptyDB (req "GET" "/books")).status = 200 := by
  refine ⟨?_, ?_, ?_⟩ <;> decide

/-! ## CollectDBMetrics -/

/-- A tick with a nil pool handle changes no instrument. -/
theorem CollectDBMetrics_nil (m : PoolMetrics) : CollectDBMetrics none m = m := rfl

/-- After a tick with a pool, the three gauges hold the sampled values and the
two counters have grown by the sampled cumulative values. -/
theorem CollectDBMetrics_some (stats : DBStats) (m : PoolMetrics) :
    (CollectDBMetrics (some stats) m).DbConnectionsOpen = stats.OpenConnections
    ∧ (CollectDBMetrics (some stats) m).DbConnectionsInUse = stats.InUse
    ∧ (CollectDBMetrics (some stats) m).DbConnectionsIdle = stats.Idle
    ∧ (CollectDBMetrics (some stats) m).DbConnectionsWaitCount
        = m.DbConnectionsWaitCount + stats.WaitCount
    ∧ (CollectDBMetrics (some stats) m).DbConnectionsWaitDuration
        = m.DbConnectionsWaitDuration + Seconds stats.WaitDuration :=
  ⟨rfl, rfl, rfl, rfl, rfl⟩

/-- Over any number of ticks with a pool, the wait-count counter is the start
value plus the SUM of all sampled cumulative wait counts. -/
theorem collectTicks_WaitCount (samples : List DBStats) (m : PoolMetrics) :
    (collectTicks (samples.map some) m).DbConnectionsWaitCount
      = m.DbConnectionsWaitCount + ((samples.map (fun s => (s.WaitCount : ℚ))).sum) := by
  induction samples generalizing m with
  | nil => simp [collectTicks]
  | cons s samples ih =>
    have := ih (CollectDBMetrics (some s) m)
    simp only [collectTicks, List.map_cons, List.foldl_cons, List.sum_cons] at this ⊢
    rw [this]
    simp only [CollectDBMetrics]
    ring

/-- C10, evaluated where the code departs from it: two ticks on a pool whose
cumulative WaitCount stays 3 and WaitDuration stays 5ns leave the wait-count
counter at 6 and the wait-duration counter at 10ns, twice the pool's cumulative
values; the three gauges hold the latest sample. -/
theorem wait_counters_add_cumulative_samples :
    (collectTicks [some samplePool, some samplePool] PoolMetrics.zero).DbConnectionsWaitCount = 6
    ∧ (collectTicks [some samplePool, some samplePool] PoolMetrics.zero).DbConnectionsWaitCount
        ≠ (samplePool.WaitCount : ℚ)
    ∧ (collectTicks [some samplePool, some samplePool] PoolMetrics.zero).DbConnectionsWaitDuration
        = Seconds 10
    ∧ (collectTicks [some samplePool, some samplePool] PoolMetrics.zero).DbConnectionsWaitDuration
        ≠ Seconds samplePool.WaitDuration
    ∧ (collectTicks [some samplePool, some samplePool] PoolMetrics.zero).DbConnectionsOpen = 2
    ∧ (collectTicks [some samplePool, some samplePool] PoolMetrics.zero).DbConnectionsInUse = 1
    ∧ (collectTicks [some samplePool, some samplePool] PoolMetrics.zero).DbConnectionsIdle = 1 := by
  refine ⟨?_, ?_, ?_, ?_, ?_, ?_, ?_⟩ <;>
    norm_num [collectTicks, CollectDBMetrics, PoolMetrics.zero, samplePool, Seconds]

/-! ## Shape of the handlers' effects -/

theorem foldl_perform_filter (es : List Event) (w : Response) :
    es.foldl Response.perform w = (es.filter isWriterEvent).foldl Response.perform w := by
  induction es generalizing w with
  | nil => rfl
  | cons e es ih =>
    cases e <;> simp [List.filter_cons, isWriterEvent, Response.perform, ih]

theorem respond_filter (es : List Event) :
    respond es = respond (es.filter isWriterEvent) := by
  unfold respond
  rw [foldl_perform_filter]

theorem logs_filter (es : List Event) (h : ∀ e ∈ es, ∃ msg, e = .logLine msg) :
    es.filter isWriterEvent = [] ∧ apiErrorIncs es = []
      ∧ ∀ rest, apiErrorBeforeStatus (es ++ rest) = apiErrorBeforeStatus rest := by
  induction es with
  | nil => simp [apiErrorIncs]
  | cons e es ih =>
    obtain ⟨msg, rfl⟩ := h e (List.mem_cons_self _ _)
    obtain ⟨h1, h2, h3⟩ := ih (fun e he => h e (List.mem_cons_of_mem _ he))
    refine ⟨?_, ?_, ?_⟩
    · simp [List.filter_cons, isWriterEvent, h1]
    · simpa [apiErrorIncs, List.filterMap_cons] using h2
    · intro rest
      simp only [List.cons_append, apiErrorBeforeStatus]
      exact h3 rest

theorem JsonShape.of_error (es : List Event) (c : Nat) (msg t e : String)
    (h1 : es.filter isWriterEvent
      = [.setHeader "Content-Type" "application/json", .writeHeader c,
         .write (.object [("error", msg)])])
    (hc : c = 400 ∨ c = 404 ∨ c = 500)
    (h2 : apiErrorIncs es = [(t, e)])
    (ht : t ∈ ["validation", "not_found", "database"])
    (h3 : apiErrorBeforeStatus es = true) : JsonShape es := by
  refine ⟨c, [.object [("error", msg)]], h1, ?_, ?_, fun _ => ⟨⟨msg, rfl⟩, t, e, h2, ht, h3⟩⟩
  · rcases hc with rfl | rfl | rfl <;> simp
  · intro hlt
    rcases hc with rfl | rfl | rfl <;> omega

theorem JsonShape.of_success (es : List Event) (c : Nat) (ps : List Payload)
    (h1 : es.filter isWriterEvent
      = [.setHeader "Content-Type" "application/json", .writeHeader c] ++ ps.map Event.write)
    (hc : c = 200 ∨ c = 201)
    (h2 : apiErrorIncs es = []) : JsonShape es := by
  refine ⟨c, ps, h1, ?_, fun _ => h2, ?_⟩
  · rcases hc with rfl | rfl <;> simp
  · intro hge
    rcases hc with rfl | rfl <;> omega

/-- What Encode writes is a list of body writes (one, or none on failure). -/
theorem encodeBook_eq (book : Book) :
    ∃ ps : List Payload, encodeBook book = ps.map Event.write := by
  unfold encodeBook
  split
  · exact ⟨[.book book], rfl⟩
  · exact ⟨[], rfl⟩

theorem encodeBooks_eq (books : Option (List Book)) :
    ∃ ps : List Payload, encodeBooks books = ps.map Event.write := by
  cases books with
  | none => exact ⟨[.null], rfl⟩
  | some bs =>
    by_cases he : bs.all Book.encodable = true
    · exact ⟨[.array bs], by simp [encodeBooks, he]⟩
    · exact ⟨[], by simp [encodeBooks, he]⟩

theorem filter_writes (ps : List Payload) :
    (ps.map Event.write).filter isWriterEvent = ps.map Event.write := by
  induction ps with
  | nil => rfl
  | cons p ps ih => simp [List.filter_cons, isWriterEvent, ih]

theorem apiErrorIncs_writes (ps : List Payload) :
    apiErrorIncs (ps.map Event.write) = [] := by
  induction ps with
  | nil => rfl
  | cons p ps ih =>
    simp only [apiErrorIncs] at ih
    simp [apiErrorIncs, List.filterMap_cons, ih]

theorem GetBooks_shape (db : DB) (r : Request) : JsonShape (GetBooks db r) := by
  cases hq : db.SelectAll with
  | error err =>
    simp only [GetBooks, hq]
    exact JsonShape.of_error _ 500 _ _ _ rfl (by simp) rfl (by simp) rfl
  | ok rows =>
    obtain ⟨h1, h2, _⟩ := logs_filter _ (scanRows_snd rows (some []))
    cases hs : scanRows rows (some []) with
    | mk books logs =>
      rw [hs] at h1 h2
      simp only at h1 h2
      simp only [apiErrorIncs] at h2
      obtain ⟨ps, hps⟩ := encodeBooks_eq books
      simp only [GetBooks, hq, hs, hps]
      refine JsonShape.of_success _ 200 ps ?_ (by simp) ?_
      · simp [isWriterEvent, h1, filter_writes]
      · simp [apiErrorIncs, List.filterMap_append, h2]

theorem GetBook_shape (db : DB) (r : Request) : JsonShape (GetBook db r) := by
  cases ha : Atoi (TrimPrefix r.Path "/books/") with
  | none =>
    simp only [GetBook, ha]
    exact JsonShape.of_error _ 400 _ _ _ rfl (by simp) rfl (by simp) rfl
  | some id =>
    cases hq : db.SelectByID id with
    | error err =>
      simp only [GetBook, ha, hq]
      exact JsonShape.of_error _ 404 _ _ _ rfl (by simp) rfl (by simp) rfl
    | ok book =>
      obtain ⟨ps, hps⟩ := encodeBook_eq book
      simp only [GetBook, ha, hq, hps]
      refine JsonShape.of_success _ 200 ps ?_ (by simp) ?_
      · simp [isWriterEvent, filter_writes]
      · simp [apiErrorIncs, List.filterMap_append]

theorem CreateBook_shape (db : DB) (r : Request) : JsonShape (CreateBook db r) := by
  cases hb : r.Body with
  | none =>
    simp only [CreateBook, hb]
    exact JsonShape.of_error _ 400 _ _ _ rfl (by simp) rfl (by simp) rfl
  | some book =>
    by_cases he : book.Title = "" ∨ book.Author = ""
    · simp only [CreateBook, hb, he, if_true]
      exact JsonShape.of_error _ 400 _ _ _ rfl (by simp) rfl (by simp) rfl
    · cases hq : db.Insert book.Title book.Author book.ISBN book.Price with
      | error err =>
        simp only [CreateBook, hb, he, if_false, hq]
        exact JsonShape.of_error _ 500 _ _ _ rfl (by simp) rfl (by simp) rfl
      | ok res =>
        obtain ⟨id, createdAt, updatedAt⟩ := res
        obtain ⟨ps, hps⟩ := encodeBook_eq
          { book with ID := id, CreatedAt := createdAt, UpdatedAt := updatedAt }
        simp only [CreateBook, hb, he, if_false, hq, hps]
        refine JsonShape.of_success _ 201 ps ?_ (by simp) ?_
        · simp [isWriterEvent, filter_writes]
        · simp [apiErrorIncs, List.filterMap_append]

theorem UpdateBook_shape (db : DB) (r : Request) : JsonShape (UpdateBook db r) := by
  cases ha : Atoi (TrimPrefix r.Path "/books/") with
  | none =>
    simp only [UpdateBook, ha]
    exact JsonShape.of_error _ 400 _ _ _ rfl (by simp) rfl (by simp) rfl
  | some id =>
    cases hb : r.Body with
    | none =>
      simp only [UpdateBook, ha, hb]
      exact JsonShape.of_error _ 400 _ _ _ rfl (by simp) rfl (by simp) rfl
    | some book =>
      cases hq : db.Update book.Title book.Author book.ISBN book.Price id with
      | error err =>
        simp only [UpdateBook, ha, hb, hq]
        exact JsonShape.of_error _ 404 _ _ _ rfl (by simp) rfl (by simp) rfl
      | ok row =>
        obtain ⟨ps, hps⟩ := encodeBook_eq row
        simp only [UpdateBook, ha, hb, hq, hps]
        refine JsonShape.of_success _ 200 ps ?_ (by simp) ?_
        · simp [isWriterEvent, filter_writes]
        · simp [apiErrorIncs, List.filterMap_append]

theorem DeleteBook_shape (db : DB) (r : Request) : JsonShape (DeleteBook db r) := by
  cases ha : Atoi (TrimPrefix r.Path "/books/") with
  | none =>
    simp only [DeleteBook, ha]
    exact JsonShape.of_error _ 400 _ _ _ rfl (by simp) rfl (by simp) rfl
  | some id =>
    cases hq : db.Delete id with
    | error err =>
      simp only [DeleteBook, ha, hq]
      exact JsonShape.of_error _ 500 _ _ _ rfl (by simp) rfl (by simp) rfl
    | ok n =>
      by_cases hn : n = 0
      · simp only [DeleteBook, ha, hq, hn, if_true]
        exact JsonShape.of_error _ 404 _ _ _ rfl (by simp) rfl (by simp) rfl
      · simp only [DeleteBook, ha, hq, hn, if_false]
        exact JsonShape.of_success _ 200 [_] rfl (by simp) rfl

/-- The router either runs a handler or writes its own 405 through `http.Error`. -/
theorem bookRouter_shape (db : DB) (r : Request) :
    JsonShape (bookRouter db r) ∨ bookRouter db r = httpError "Method not allowed" 405 := by
  have h := (bookRouter_table db r)
  rw [h]
  cases routeTable r.Method (hasID r.Path) with
  | listAll => exact Or.inl (GetBooks_shape db r)
  | getOne => exact Or.inl (GetBook_shape db r)
  | create => exact Or.inl (CreateBook_shape db r)
  | update => exact Or.inl (UpdateBook_shape db r)
  | delete => exact Or.inl (DeleteBook_shape db r)
  | methodNotAllowed => exact Or.inr rfl

/-! ## Responses of the registered routes -/

/-- The Logger middleware does not change the response of the handler it wraps. -/
theorem serve_Logger (next : HandlerFunc) (db : DB) (r : Request) :
    serve (Logger next) db r = serve next db r := by
  unfold serve
  rw [respond_filter, respond_filter (next db r)]
  simp [Logger, foldl_perform_ResponseWriter, List.filter_append, List.filter_cons,
    isWriterEvent]

/-- Once the header is written, body writes only extend the body. -/
theorem foldl_writes (ps : List Payload) (w : Response) (hw : w.wroteHeader = true) :
    (ps.map Event.write).foldl Response.perform w = { w with body := w.body ++ ps } := by
  induction ps generalizing w with
  | nil => simp
  | cons p ps ih =>
    simp only [List.map_cons, List.foldl_cons, Response.perform, Response.Write,
      Response.WriteHeader, hw, if_true]
    rw [ih _ rfl]
    simp [hw]

theorem respond_cors_json (c : Nat) (ps : List Payload) :
    (respond (corsHeaders ++
      ([.setHeader "Content-Type" "application/json", .writeHeader c]
        ++ ps.map Event.write))).status = c
    ∧ (respond (corsHeaders ++
      ([.setHeader "Content-Type" "application/json", .writeHeader c]
        ++ ps.map Event.write))).body = ps
    ∧ (respond (corsHeaders ++
      ([.setHeader "Content-Type" "application/json", .writeHeader c]
        ++ ps.map Event.write))).Get "Content-Type" = some "application/json" := by
  unfold respond
  rw [← List.append_assoc, List.foldl_append, foldl_writes]
  · simp [corsHeaders, Response.perform, Response.init, Response.Set,
      Response.WriteHeader, Response.Get]
  · simp [corsHeaders, Response.perform, Response.init, Response.Set,
      Response.WriteHeader]

theorem respond_json (c : Nat) (ps : List Payload) :
    (respond ([.setHeader "Content-Type" "application/json", .writeHeader c]
      ++ ps.map Event.write)).status = c := by
  unfold respond
  rw [List.foldl_append, foldl_writes]
  · simp [Response.perform, Response.init, Response.Set, Response.WriteHeader]
  · simp [Response.perform, Response.init, Response.Set, Response.WriteHeader]

theorem serve_route (h : HandlerFunc) (db : DB) (r : Request) (hm : r.Method ≠ "OPTIONS") :
    serve (Logger (EnableCORS h)) db r
      = respond (corsHeaders ++ (h db r).filter isWriterEvent) := by
  rw [serve_Logger]
  unfold serve
  rw [respond_filter]
  simp [EnableCORS, hm, corsHeaders, List.filter_cons, isWriterEvent]

theorem serve_route_options (h : HandlerFunc) (db : DB) (r : Request)
    (hm : r.Method = "OPTIONS") :
    serve (Logger (EnableCORS h)) db r = respond (corsHeaders ++ [.writeHeader 200]) := by
  rw [serve_Logger]
  unfold serve
  simp [EnableCORS, hm, corsHeaders]

theorem HealthCheck_filter (db : DB) (r : Request) :
    (HealthCheck db r).filter isWriterEvent =
      match db.Ping with
      | some err =>
        [.setHeader "Content-Type" "application/json", .writeHeader 503,
         .write (.object [("database", "disconnected"), ("error", err),
                          ("service", "book-api"), ("status", "unhealthy")])]
      | none =>
        [.setHeader "Content-Type" "application/json", .writeHeader 200,
         .write (.object [("database", "connected"), ("service", "book-api"),
                          ("status", "healthy")])] := by
  cases hp : db.Ping <;> simp [HealthCheck, hp, List.filter_cons, isWriterEvent]

/-- C7 as the code has it: on the routed endpoints, a response written by one
of the handlers (any non-OPTIONS request not answered by the router's own 405)
has Content-Type application/json, an error response of a book handler has a
body with the single member "error", and the health check's 503 body is the
object of database, error, service, status; the router's 405 goes out through
`http.Error` as text/plain with the text "Method not allowed", and the OPTIONS
preflight is a 200 with no Content-Type and no body. -/
theorem routed_responses_content_type (db : DB) (r : Request) :
    (r.Method ≠ "OPTIONS" →
      ((serve booksRoute db r).status ≠ 405 →
        (serve booksRoute db r).Get "Content-Type" = some "application/json"
        ∧ (400 ≤ (serve booksRoute db r).status →
            ∃ msg, (serve booksRoute db r).body = [.object [("error", msg)]]))
      ∧ ((serve booksRoute db r).status = 405 →
        (serve booksRoute db r).Get "Content-Type" = some "text/plain; charset=utf-8"
        ∧ (serve booksRoute db r).body = [.text "Method not allowed\n"])
      ∧ (serve healthRoute db r).Get "Content-Type" = some "application/json"
      ∧ (400 ≤ (serve healthRoute db r).status →
          ∃ err, (serve healthRoute db r).body =
            [.object [("database", "disconnected"), ("error", err),
                      ("service", "book-api"), ("status", "unhealthy")]]))
    ∧ (r.Method = "OPTIONS" →
      ∀ route ∈ [booksRoute, healthRoute],
        (serve route db r).status = 200
        ∧ (serve route db r).Get "Content-Type" = none
        ∧ (serve route db r).body = []) := by
  constructor
  · intro hm
    have hb : serve booksRoute db r
        = respond (corsHeaders ++ (bookRouter db r).filter isWriterEvent) :=
      serve_route bookRouter db r hm
    have hh : serve healthRoute db r
        = respond (corsHeaders ++ (HealthCheck db r).filter isWriterEvent) :=
      serve_route HealthCheck db r hm
    have booksPart :
        ((serve booksRoute db r).status ≠ 405 →
          (serve booksRoute db r).Get "Content-Type" = some "application/json"
          ∧ (400 ≤ (serve booksRoute db r).status →
              ∃ msg, (serve booksRoute db r).body = [.object [("error", msg)]]))
        ∧ ((serve booksRoute db r).status = 405 →
          (serve booksRoute db r).Get "Content-Type" = some "text/plain; charset=utf-8"
          ∧ (serve booksRoute db r).body = [.text "Method not allowed\n"]) := by
      rcases bookRouter_shape db r with ⟨c, p, h1, hc, _, h4⟩ | h405
      · obtain ⟨k1, k2, k3⟩ := respond_cors_json c p
        rw [hb, h1, k1, k2, k3]
        refine ⟨fun _ => ⟨rfl, fun hge => ?_⟩, fun h405 => ?_⟩
        · obtain ⟨⟨msg, hmsg⟩, _⟩ := h4 hge
          exact ⟨msg, hmsg⟩
        · subst h405
          simp at hc
      · rw [hb, h405]
        refine ⟨fun hne => absurd ?_ hne, fun _ => ⟨?_, ?_⟩⟩ <;> decide
    refine ⟨booksPart.1, booksPart.2, ?_, ?_⟩
    · rw [hh, HealthCheck_filter]
      cases db.Ping <;>
        simp [respond, corsHeaders, Response.perform, Response.init, Response.Set,
          Response.WriteHeader, Response.Write, Response.Get]
    · rw [hh, HealthCheck_filter]
      cases db.Ping <;>
        simp [respond, corsHeaders, Response.perform, Response.init, Response.Set,
          Response.WriteHeader, Response.Write, Response.Get]
  · intro hm route hmem
    simp only [List.mem_cons, List.mem_singleton, List.not_mem_nil, or_false] at hmem
    rcases hmem with rfl | rfl
    · rw [booksRoute, serve_route_options bookRouter db r hm]
      refine ⟨?_, ?_, ?_⟩ <;> decide
    · rw [healthRoute, serve_route_options HealthCheck db r hm]
      refine ⟨?_, ?_, ?_⟩ <;> decide

theorem routed_responses_content_type_witness :
    (req "GET" "/books/abc").Method ≠ "OPTIONS"
    ∧ (serve booksRoute emptyDB (req "GET" "/books/abc")).status ≠ 405
    ∧ (serve booksRoute emptyDB (req "GET" "/books/abc")).Get "Content-Type"
        = some "application/json"
    ∧ (req "OPTIONS" "/health").Method = "OPTIONS"
    ∧ (serve healthRoute emptyDB (req "OPTIONS" "/health")).Get "Content-Type" = none :=
  ⟨by decide, by decide,
   (((routed_responses_content_type emptyDB (req "GET" "/books/abc")).1 (by decide)).1
      (by decide)).1,
   rfl,
   ((routed_responses_content_type emptyDB (req "OPTIONS" "/health")).2 rfl healthRoute
      (by simp)).2.1⟩

/-- C7 refuted as stated: the router's 405 to `PATCH /books` is text/plain with
a plain-text body, and the preflight response carries no Content-Type. -/
theorem router_405_is_plain_text :
    (serve booksRoute emptyDB (req "PATCH" "/books")).status = 405
    ∧ (serve booksRoute emptyDB (req "PATCH" "/books")).Get "Content-Type"
        = some "text/plain; charset=utf-8"
    ∧ (serve booksRoute emptyDB (req "PATCH" "/books")).body = [.text "Method not allowed\n"]
    ∧ (serve booksRoute emptyDB (req "OPTIONS" "/books")).Get "Content-Type" = none := by
  refine ⟨?_, ?_, ?_, ?_⟩ <;> decide

/-! ## Error counter -/

/-- C9 as the code has it: a response of bookRouter or HealthCheck has one of
the statuses 200, 201, 400, 404, 405, 500, 503; when it is 400, 404, 500 or
503 (an error written by a handler), ApiErrorsTotal was incremented exactly
once, with the type validation, not_found or database, before anything was
written to the response; the router's own 405 increments no error counter. -/
theorem handler_errors_counted_once (db : DB) (r : Request) :
    ∀ h ∈ [bookRouter, HealthCheck],
      (serve h db r).status ∈ [200, 201, 400, 404, 405, 500, 503]
      ∧ ((serve h db r).status ∈ [400, 404, 500, 503] →
          ∃ t e, apiErrorIncs (h db r) = [(t, e)]
            ∧ t ∈ ["validation", "not_found", "database"]
            ∧ apiErrorBeforeStatus (h db r) = true)
      ∧ ((serve h db r).status = 405 → apiErrorIncs (h db r) = []) := by
  intro h hmem
  simp only [List.mem_cons, List.mem_singleton, List.not_mem_nil, or_false] at hmem
  rcases hmem with rfl | rfl
  · rcases bookRouter_shape db r with ⟨c, p, h1, hc, h3, h4⟩ | h405
    · have hs : (serve bookRouter db r).status = c := by
        unfold serve
        rw [respond_filter, h1, respond_json]
      rw [hs]
      refine ⟨?_, fun hmem => (h4 ?_).2, fun h405 => ?_⟩
      · simp only [List.mem_cons, List.mem_singleton, List.not_mem_nil, or_false] at hc ⊢
        tauto
      · simp only [List.mem_cons, List.mem_singleton, List.not_mem_nil, or_false] at hmem
        omega
      · subst h405
        simp at hc
    · have hs : (serve bookRouter db r).status = 405 := by
        unfold serve
        rw [h405]
        decide
      rw [hs, h405]
      refine ⟨by simp, fun hmem => ?_, fun _ => by decide⟩
      simp at hmem
  · cases hp : db.Ping <;>
      simp [serve, respond, HealthCheck, hp, Response.perform, Response.init, Response.Set,
        Response.WriteHeader, Response.Write, apiErrorIncs, apiErrorBeforeStatus]

theorem handler_errors_counted_once_witness :
    (serve bookRouter downDB (req "DELETE" "/books/7")).status ∈ [400, 404, 500, 503]
    ∧ ∃ t e, apiErrorIncs (bookRouter downDB (req "DELETE" "/books/7")) = [(t, e)]
        ∧ t ∈ ["validation", "not_found", "database"]
        ∧ apiErrorBeforeStatus (bookRouter downDB (req "DELETE" "/books/7")) = true :=
  ⟨by decide,
   (handler_errors_counted_once downDB (req "DELETE" "/books/7") bookRouter (by simp)).2.1
     (by decide)⟩

/-- C9 refuted as stated: the router answers `PATCH /books` with the error
status 405 and ApiErrorsTotal is not incremented. -/
theorem router_405_counts_no_api_error :
    (serve bookRouter emptyDB (req "PATCH" "/books")).status = 405
    ∧ apiErrorIncs (bookRouter emptyDB (req "PATCH" "/books")) = [] := by
  refine ⟨?_, ?_⟩ <;> decide

end BookAPI
